import Mathlib

/-!
Shallow embedding of `download_and_merge_tiles.py`: a single-run batch
utility that fetches a rectangular grid of image tiles over HTTP,
stitches them into one canvas, optionally upscales the canvas, and
saves the result as a PNG.  External collaborators (the HTTP transport,
the PIL image codec, the filesystem, the clock and the logger) are
modelled as oracles and recorded call traces; the control flow follows
the source line by line.
-/

/-- PIL resampling filters used by the script: `Image.Resampling.LANCZOS`
when normalizing a tile of unexpected size, `Image.Resampling.NEAREST`
for the final upscaling. -/
inductive Resampling where
  | LANCZOS
  | NEAREST
deriving DecidableEq, Repr

/-- A codec call made on a PIL image object, recorded so that theorems can
speak about which operations the script performed on a bitmap. -/
inductive ImOp where
  | resized (w h : Nat) (method : Resampling)
  | converted (mode : String)
deriving DecidableEq, Repr

/-- A decoded PIL bitmap: width, height, pixel mode (e.g. `"RGBA"`),
whether `load()` has materialized its pixel data, and the trace of codec
calls that produced it.  Pixel contents live in the (external) codec. -/
structure Image where
  width : Nat
  height : Nat
  mode : String
  loaded : Bool := false
  ops : List ImOp := []
deriving DecidableEq, Repr

/-- `PIL.Image.new(mode, (w, h), color)`: a fresh bitmap, pixels
materialized by construction. -/
def Image.new (mode : String) (w h : Nat) : Image :=
  { width := w, height := h, mode := mode, loaded := true }

/-- `img.resize((w, h), method)`. -/
def Image.resize (img : Image) (w h : Nat) (method : Resampling) : Image :=
  { img with width := w, height := h, ops := img.ops ++ [.resized w h method] }

/-- `img.convert(mode)`. -/
def Image.convert (img : Image) (mode : String) : Image :=
  { img with mode := mode, ops := img.ops ++ [.converted mode] }

/-- `img.load()`: materialize the pixel data. -/
def Image.load (img : Image) : Image :=
  { img with loaded := true }

/-- The exception raised by one download attempt, mirroring the two
`except` arms of `download_image`: a `requests.exceptions.RequestException`
(network failure, timeout, or the non-success status raised by
`raise_for_status`), or any other exception — in particular a failure to
decode the body as an image. -/
inductive FetchError where
  | requestError (msg : String)
  | processingError (msg : String)
deriving DecidableEq, Repr

instance : DecidableEq (Except FetchError Image) := fun a b =>
  match a, b with
  | .ok x, .ok y => if h : x = y then .isTrue (by rw [h]) else .isFalse (by simp [h])
  | .error x, .error y => if h : x = y then .isTrue (by rw [h]) else .isFalse (by simp [h])
  | .ok _, .error _ => .isFalse (by simp)
  | .error _, .ok _ => .isFalse (by simp)

/-- The observable outcome of one call to `download_image`: the returned
value (`some` image or `None`), the final value of the `last_error`
local (reported in the terminal error log on failure), the durations of
the `time.sleep` calls in the order they happened (seconds), and the
number of attempts performed. -/
structure DownloadResult where
  image : Option Image
  last_error : Option FetchError
  sleeps : List ℚ
  attemptsMade : Nat
deriving DecidableEq, Repr

/-- The attempt loop of `download_image`.  `oracle k` is the combined
outcome of attempt `k` against network and decoder (`requests.get`,
`raise_for_status`, `response.content`, `Image.open`): the decoded (not
yet materialized) image, or the exception that attempt raised.
`attempts` lists the remaining attempt numbers; `last_error`, `sleeps`
and `made` carry the state accumulated so far.  On success the image is
materialized with `load()` and returned; on error the exception is
remembered and, if attempts remain (`attempt < retries`), the loop
sleeps `backoff_seconds * attempt` before the next attempt. -/
def downloadAux (oracle : Nat → Except FetchError Image) (retries : Nat)
    (backoff_seconds : ℚ) :
    List Nat → Option FetchError → List ℚ → Nat → DownloadResult
  | [], last_error, sleeps, made => ⟨none, last_error, sleeps, made⟩
  | attempt :: rest, last_error, sleeps, made =>
    match oracle attempt with
    | .ok image => ⟨some image.load, last_error, sleeps, made + 1⟩
    | .error e =>
      downloadAux oracle retries backoff_seconds rest (some e)
        (if attempt < retries then sleeps ++ [backoff_seconds * (attempt : ℚ)] else sleeps)
        (made + 1)

/-- `download_image(url, timeout, retries, backoff_seconds)`: run attempts
`1, 2, …, retries` (`for attempt in range(1, retries + 1)`), returning
the first successfully decoded image, or `None` after the final failed
attempt.  The float `backoff_seconds` is modelled as a rational. -/
def download_image (oracle : Nat → Except FetchError Image) (retries : Nat)
    (backoff_seconds : ℚ) : DownloadResult :=
  downloadAux oracle retries backoff_seconds (List.range' 1 retries) none [] 0

/-- One `merged_image.paste(tile, (x, y), mask)` call on the canvas. -/
structure Paste where
  tile : Image
  x : Nat
  y : Nat
  mask : Image
deriving DecidableEq, Repr

/-- The merged canvas: the underlying bitmap and the trace of paste calls
made on it. -/
structure Canvas where
  image : Image
  pastes : List Paste
deriving DecidableEq, Repr

/-- `canvas.paste(tile, (x, y), mask)`. -/
def Canvas.paste (c : Canvas) (tile : Image) (x y : Nat) (mask : Image) : Canvas :=
  { c with pastes := c.pastes ++ [⟨tile, x, y, mask⟩] }

/-- The pixel positions covered by a paste event: the rectangle of the
pasted tile's size anchored at the paste offset. -/
def Paste.covers (p : Paste) (q : Nat × Nat) : Prop :=
  p.x ≤ q.1 ∧ q.1 < p.x + p.tile.width ∧ p.y ≤ q.2 ∧ q.2 < p.y + p.tile.height

instance (p : Paste) (q : Nat × Nat) : Decidable (p.covers q) := by
  unfold Paste.covers; infer_instance

/-- The module-level configuration of the script: the compiled-in grid of
tile URLs, the tile size, and the `SCALE_FACTOR` environment override
(a Python `int`, hence `Int`). -/
structure Config where
  TILE_URLS : List (List String)
  TILE_SIZE : Nat
  SCALE_FACTOR : Int

/-- `GRID_ROWS = len(TILE_URLS)`. -/
def Config.GRID_ROWS (cfg : Config) : Nat := cfg.TILE_URLS.length

/-- `GRID_COLS = len(TILE_URLS[0]) if TILE_URLS else 0`. -/
def Config.GRID_COLS (cfg : Config) : Nat :=
  match cfg.TILE_URLS with
  | [] => 0
  | r :: _ => r.length

/-- `TOTAL_TILES = GRID_ROWS * GRID_COLS`. -/
def Config.TOTAL_TILES (cfg : Config) : Nat := cfg.GRID_ROWS * cfg.GRID_COLS

/-- `ORIGINAL_WIDTH = TILE_SIZE * GRID_COLS`. -/
def Config.ORIGINAL_WIDTH (cfg : Config) : Nat := cfg.TILE_SIZE * cfg.GRID_COLS

/-- `ORIGINAL_HEIGHT = TILE_SIZE * GRID_ROWS`. -/
def Config.ORIGINAL_HEIGHT (cfg : Config) : Nat := cfg.TILE_SIZE * cfg.GRID_ROWS

/-- `FINAL_WIDTH = ORIGINAL_WIDTH * SCALE_FACTOR`. -/
def Config.FINAL_WIDTH (cfg : Config) : Int := cfg.ORIGINAL_WIDTH * cfg.SCALE_FACTOR

/-- `FINAL_HEIGHT = ORIGINAL_HEIGHT * SCALE_FACTOR`. -/
def Config.FINAL_HEIGHT (cfg : Config) : Int := cfg.ORIGINAL_HEIGHT * cfg.SCALE_FACTOR

/-- `TILE_URLS[row][col]` for a cell `rc = (row, col)`.  The loop of
`create_merged_image` only evaluates this at in-range indices of the
rectangular grid. -/
def urlAt (cfg : Config) (rc : Nat × Nat) : String :=
  (cfg.TILE_URLS.getD rc.1 []).getD rc.2 ""

/-- First normalization statement of the merge loop:
`if tile.size != (TILE_SIZE, TILE_SIZE): tile = tile.resize(..., LANCZOS)`. -/
def resizeIfNeeded (tileSize : Nat) (tile : Image) : Image :=
  if (tile.width, tile.height) ≠ (tileSize, tileSize)
  then tile.resize tileSize tileSize .LANCZOS else tile

/-- Second normalization statement of the merge loop:
`if tile.mode != 'RGBA': tile = tile.convert('RGBA')`. -/
def convertIfNeeded (tile : Image) : Image :=
  if tile.mode ≠ "RGBA" then tile.convert "RGBA" else tile

/-- Tile normalization inside the merge loop: resize to
`TILE_SIZE × TILE_SIZE` with LANCZOS if the size differs, then convert
to RGBA if the mode differs. -/
def normalizeTile (tileSize : Nat) (tile : Image) : Image :=
  convertIfNeeded (resizeIfNeeded tileSize tile)

/-- State of the merge loop: the canvas under construction and the
`failed_tiles` / `successful_tiles` locals. -/
structure MergeSt where
  canvas : Canvas
  failed_tiles : List String
  successful_tiles : Nat
deriving Repr

/-- One iteration of the double loop of `create_merged_image` at cell
`rc = (row, col)`: fetch the tile; if a tile came back, normalize it and
paste it at `(col * TILE_SIZE, row * TILE_SIZE)` with the tile itself as
the blend mask and increment `successful_tiles`; otherwise append the
URL to `failed_tiles` and continue. -/
def mergeStep (cfg : Config) (fetch : String → Option Image) (st : MergeSt)
    (rc : Nat × Nat) : MergeSt :=
  match fetch (urlAt cfg rc) with
  | some tile0 =>
    let tile := normalizeTile cfg.TILE_SIZE tile0
    let x := rc.2 * cfg.TILE_SIZE
    let y := rc.1 * cfg.TILE_SIZE
    ⟨st.canvas.paste tile x y tile, st.failed_tiles, st.successful_tiles + 1⟩
  | none => ⟨st.canvas, st.failed_tiles ++ [urlAt cfg rc], st.successful_tiles⟩

/-- The row-major cell order of the double loop:
`for row in range(GRID_ROWS): for col in range(GRID_COLS)`. -/
def gridCells (cfg : Config) : List (Nat × Nat) :=
  (List.range cfg.GRID_ROWS).flatMap fun r =>
    (List.range cfg.GRID_COLS).map fun c => (r, c)

/-- The paste event that cell `rc` contributes when its fetch succeeds
(the `none` arm is junk, never reached in the theorems below). -/
def pasteOf (cfg : Config) (fetch : String → Option Image) (rc : Nat × Nat) : Paste :=
  match fetch (urlAt cfg rc) with
  | some tile0 =>
    let tile := normalizeTile cfg.TILE_SIZE tile0
    ⟨tile, rc.2 * cfg.TILE_SIZE, rc.1 * cfg.TILE_SIZE, tile⟩
  | none => ⟨Image.new "RGBA" 0 0, 0, 0, Image.new "RGBA" 0 0⟩

/-- The state of the merge loop after all grid cells have been attempted,
starting from the fresh fully-transparent RGBA canvas of size
`(ORIGINAL_WIDTH, ORIGINAL_HEIGHT)` and empty failure list. -/
def mergeLoopState (cfg : Config) (fetch : String → Option Image) : MergeSt :=
  (gridCells cfg).foldl (mergeStep cfg fetch)
    ⟨⟨Image.new "RGBA" cfg.ORIGINAL_WIDTH cfg.ORIGINAL_HEIGHT, []⟩, [], 0⟩

/-- The observable outcome of one call to `create_merged_image`: `result`
is the Python return value (`some` canvas or `None`); `canvas`,
`failed_tiles` and `successful_tiles` are the final values of the
corresponding locals (the failed URLs are enumerated one by one in the
error log just before returning `None`). -/
structure MergeResult where
  result : Option Canvas
  canvas : Canvas
  failed_tiles : List String
  successful_tiles : Nat
deriving Repr

/-- `create_merged_image()`: run the merge loop over the whole grid; if
`failed_tiles` is non-empty return `None`; otherwise, when
`SCALE_FACTOR > 1`, return the canvas resized with NEAREST to
`(FINAL_WIDTH, FINAL_HEIGHT)`, and the canvas unchanged otherwise.
`fetch url` is the value `download_image(url)` returns for that URL
(the network is deterministic per URL within one run of the loop). -/
def create_merged_image (cfg : Config) (fetch : String → Option Image) : MergeResult :=
  let st := mergeLoopState cfg fetch
  if st.failed_tiles ≠ [] then
    ⟨none, st.canvas, st.failed_tiles, st.successful_tiles⟩
  else if cfg.SCALE_FACTOR > 1 then
    ⟨some ⟨st.canvas.image.resize cfg.FINAL_WIDTH.toNat cfg.FINAL_HEIGHT.toNat .NEAREST,
           st.canvas.pastes⟩,
     st.canvas, st.failed_tiles, st.successful_tiles⟩
  else
    ⟨some st.canvas, st.canvas, st.failed_tiles, st.successful_tiles⟩

/-- `save_image(image, output_dir)`: the directory creation, timestamp
formatting and PNG encoding are external I/O; `fsError` models whether
any call inside the `try` block raised, `dated_dir` the
`<output_dir>/<YYYYMMDD>` folder and `timestamp` the formatted local
time.  Returns the saved file path, or `None` when the I/O raised. -/
def save_image (fsError : Bool) (dated_dir timestamp : String) (_image : Canvas) :
    Option String :=
  if fsError then none
  else some (dated_dir ++ "/" ++ "merged_tiles_" ++ timestamp ++ ".png")

/-- The return value of `main()`: create the merged image; if that
produced a canvas, save it and succeed exactly when a path came back
(the constructed path is a non-empty string, so Python's truthiness test
`if saved_path:` is `isSome` here); fail otherwise. -/
def mainResult (cfg : Config) (fetch : String → Option Image) (fsError : Bool)
    (dated_dir timestamp : String) : Bool :=
  match (create_merged_image cfg fetch).result with
  | some merged_image =>
    (save_image fsError dated_dir timestamp merged_image).isSome
  | none => false

/-- `exit(0 if success else 1)` at the bottom of the script. -/
def exitCode (cfg : Config) (fetch : String → Option Image) (fsError : Bool)
    (dated_dir timestamp : String) : Nat :=
  if mainResult cfg fetch fsError dated_dir timestamp then 0 else 1

/-- Concrete 2×2 grid configuration with tile size 5 and scale factor 2,
used to instantiate the theorems below on closed inputs. -/
def cfgW : Config := ⟨[["u00", "u01"], ["u10", "u11"]], 5, 2⟩

/-- The same grid with `SCALE_FACTOR = 1`. -/
def cfgW1 : Config := ⟨[["u00", "u01"], ["u10", "u11"]], 5, 1⟩

/-- The same grid with a negative `SCALE_FACTOR`. -/
def cfgW0 : Config := ⟨[["u00", "u01"], ["u10", "u11"]], 5, -3⟩

/-- A network where the fetch of `"u10"` fails and every other URL yields
a well-formed 5×5 RGBA tile. -/
def fetchW : String → Option Image := fun u =>
  if u = "u10" then none else some ⟨5, 5, "RGBA", true, []⟩

/-- A network where every fetch succeeds but delivers a tile of the wrong
size (7×9) and of a non-RGBA mode. -/
def fetchOkW : String → Option Image := fun _ => some ⟨7, 9, "P", true, []⟩

/-- Characterization of the attempt loop when every remaining attempt
fails: no image, the last error is the one of attempt `retries`, one
sleep of `b * k` for every attempt `k` except the final one, and every
attempt is performed. -/
theorem downloadAux_all_fail (oracle : Nat → Except FetchError Image) (retries : Nat)
    (b : ℚ) (err : Nat → FetchError) :
    ∀ (m s : Nat) (le : Option FetchError) (acc : List ℚ) (made : Nat),
      s + m = retries + 1 →
      (∀ k, s ≤ k → k < s + m → oracle k = .error (err k)) →
      downloadAux oracle retries b (List.range' s m) le acc made =
        ⟨none, if m = 0 then le else some (err retries),
         acc ++ (List.range' s (m - 1)).map (fun k : Nat => b * (k : ℚ)), made + m⟩ := by
  intro m
  induction m with
  | zero =>
    intro s le acc made _ _
    simp [downloadAux]
  | succ k ih =>
    intro s le acc made hs herr
    have h0 : oracle s = .error (err s) := herr s le_rfl (by omega)
    rw [show List.range' s (k + 1) = s :: List.range' (s + 1) k from List.range'_succ s k 1]
    simp only [downloadAux, h0]
    by_cases hsr : s < retries
    · have hk : k ≠ 0 := by omega
      rw [if_pos hsr,
        ih (s + 1) (some (err s)) (acc ++ [b * (s : ℚ)]) (made + 1) (by omega)
          (fun j hj1 hj2 => herr j (by omega) (by omega))]
      have hkk : k = (k - 1) + 1 := by omega
      congr 1
      · rw [if_neg hk, if_neg (show ¬(k + 1 = 0) by omega)]
      · rw [show k + 1 - 1 = k from rfl, hkk,
          show List.range' s ((k - 1) + 1) = s :: List.range' (s + 1) (k - 1) from
            List.range'_succ s (k - 1) 1]
        simp
      · omega
    · have hs0 : s = retries := by omega
      have hk0 : k = 0 := by omega
      rw [if_neg hsr,
        ih (s + 1) (some (err s)) acc (made + 1) (by omega) (fun j hj1 hj2 => by omega)]
      subst hk0
      simp [hs0]

/-- Claim C2 (retry bound and linear backoff): for every fetch whose every
attempt fails, with `retries = n ≥ 1` and backoff base `b > 0`, exactly
`n` attempts are made, the sleeps are `b·1, b·2, …, b·(n−1)` in that
order (one after each failed attempt except the last), they are strictly
increasing, and no image is returned. -/
theorem spec_c2 (oracle : Nat → Except FetchError Image) (err : Nat → FetchError)
    (retries : Nat) (b : ℚ) (hr : 1 ≤ retries) (hb : 0 < b)
    (herr : ∀ k ∈ List.range' 1 retries, oracle k = .error (err k)) :
    (download_image oracle retries b).attemptsMade = retries ∧
    (download_image oracle retries b).sleeps =
      (List.range' 1 (retries - 1)).map (fun k : Nat => b * (k : ℚ)) ∧
    (download_image oracle retries b).sleeps.Pairwise (· < ·) ∧
    (download_image oracle retries b).image = none := by
  have h := downloadAux_all_fail oracle retries b err retries 1 none [] 0 (by omega)
    (fun k hk1 hk2 => herr k (by rw [List.mem_range'_1]; omega))
  rw [download_image, h]
  refine ⟨by simp, by simp, ?_, rfl⟩
  simp only [List.nil_append]
  refine List.Pairwise.map _ (fun a a' haa => ?_)
    (List.pairwise_lt_range' 1 (retries - 1) 1 one_pos)
  exact mul_lt_mul_of_pos_left (by exact_mod_cast haa) hb

/-- Closed instance of C2: three attempts against a server that always
fails with HTTP 500 give exactly 3 attempts and sleeps `3/2, 3`. -/
theorem spec_c2_witness :
    (download_image (fun _ => .error (.requestError "HTTP 500")) 3 (3 / 2)).attemptsMade = 3 ∧
    (download_image (fun _ => .error (.requestError "HTTP 500")) 3 (3 / 2)).sleeps =
      (List.range' 1 (3 - 1)).map (fun k : Nat => (3 / 2 : ℚ) * (k : ℚ)) ∧
    (download_image (fun _ => .error (.requestError "HTTP 500")) 3 (3 / 2)).sleeps.Pairwise
      (· < ·) ∧
    (download_image (fun _ => .error (.requestError "HTTP 500")) 3 (3 / 2)).image = none :=
  spec_c2 (fun _ => .error (.requestError "HTTP 500"))
    (fun _ => .requestError "HTTP 500") 3 (3 / 2) (by norm_num) (by norm_num) (by decide)

/-- Claim C6 (failure is a value): when every attempt of a fetch fails,
the function returns `None` (a value — the loop catches every exception)
carrying as `last_error` the error of the final attempt, and the
behaviour does not depend on whether the per-attempt errors were network
errors or body-decoding errors: both error arms yield the same returned
image, the same sleeps and the same attempt count. -/
theorem spec_c6 (oracle : Nat → Except FetchError Image) (err : Nat → FetchError)
    (retries : Nat) (b : ℚ) (hr : 1 ≤ retries)
    (herr : ∀ k ∈ List.range' 1 retries, oracle k = .error (err k)) (msg : Nat → String) :
    (download_image oracle retries b).image = none ∧
    (download_image oracle retries b).last_error = some (err retries) ∧
    (download_image (fun k => .error (.requestError (msg k))) retries b).image =
      (download_image (fun k => .error (.processingError (msg k))) retries b).image ∧
    (download_image (fun k => .error (.requestError (msg k))) retries b).sleeps =
      (download_image (fun k => .error (.processingError (msg k))) retries b).sleeps ∧
    (download_image (fun k => .error (.requestError (msg k))) retries b).attemptsMade =
      (download_image (fun k => .error (.processingError (msg k))) retries b).attemptsMade := by
  have h := downloadAux_all_fail oracle retries b err retries 1 none [] 0 (by omega)
    (fun k hk1 hk2 => herr k (by rw [List.mem_range'_1]; omega))
  have hreq := downloadAux_all_fail (fun k => .error (.requestError (msg k))) retries b
    (fun k => .requestError (msg k)) retries 1 none [] 0 (by omega) (fun k _ _ => rfl)
  have hproc := downloadAux_all_fail (fun k => .error (.processingError (msg k))) retries b
    (fun k => .processingError (msg k)) retries 1 none [] 0 (by omega) (fun k _ _ => rfl)
  rw [download_image, download_image, download_image, h, hreq, hproc]
  have hr0 : retries ≠ 0 := by omega
  refine ⟨rfl, by rw [if_neg hr0], rfl, rfl, rfl⟩

/-- Closed instance of C6: two attempts, the first failing on the network
and the second failing to decode the body; the result is `None` with the
decode error as last error, and the request-error/decode-error runs
agree on image, sleeps and attempt count. -/
theorem spec_c6_witness :
    (download_image
        (fun k => if k = 1 then .error (.requestError "timeout")
                  else .error (.processingError "truncated body")) 2 1).image = none ∧
    (download_image
        (fun k => if k = 1 then .error (.requestError "timeout")
                  else .error (.processingError "truncated body")) 2 1).last_error =
      some ((fun k => if k = 1 then FetchError.requestError "timeout"
                      else .processingError "truncated body") 2) ∧
    (download_image (fun k => .error (.requestError ("e" ++ toString k))) 2 1).image =
      (download_image (fun k => .error (.processingError ("e" ++ toString k))) 2 1).image ∧
    (download_image (fun k => .error (.requestError ("e" ++ toString k))) 2 1).sleeps =
      (download_image (fun k => .error (.processingError ("e" ++ toString k))) 2 1).sleeps ∧
    (download_image (fun k => .error (.requestError ("e" ++ toString k))) 2 1).attemptsMade =
      (download_image (fun k => .error (.processingError ("e" ++ toString k))) 2 1).attemptsMade :=
  spec_c6
    (fun k => if k = 1 then .error (.requestError "timeout")
              else .error (.processingError "truncated body"))
    (fun k => if k = 1 then .requestError "timeout" else .processingError "truncated body")
    2 1 (by norm_num) (by decide) (fun k => "e" ++ toString k)

/-- Claim C7 (single attempt on success): when the first attempt succeeds
the fetch performs exactly one attempt, no sleep, and returns the
decoded image with its pixel data materialized by `load()`. -/
theorem spec_c7 (oracle : Nat → Except FetchError Image) (retries : Nat) (b : ℚ)
    (img : Image) (hr : 1 ≤ retries) (h1 : oracle 1 = .ok img) :
    download_image oracle retries b = ⟨some img.load, none, [], 1⟩ ∧
    (Image.load img).loaded = true := by
  refine ⟨?_, rfl⟩
  obtain ⟨m, rfl⟩ : ∃ m, retries = m + 1 := ⟨retries - 1, by omega⟩
  rw [download_image,
    show List.range' 1 (m + 1) = 1 :: List.range' 2 m from List.range'_succ 1 m 1]
  simp [downloadAux, h1]

/-- Closed instance of C7: a first-attempt success with 5 configured
retries returns the loaded image after exactly one attempt. -/
theorem spec_c7_witness :
    download_image (fun _ => .ok ⟨1000, 1000, "RGBA", false, []⟩) 5 (3 / 2) =
      ⟨some (Image.load ⟨1000, 1000, "RGBA", false, []⟩), none, [], 1⟩ ∧
    (Image.load ⟨1000, 1000, "RGBA", false, []⟩).loaded = true :=
  spec_c7 (fun _ => .ok ⟨1000, 1000, "RGBA", false, []⟩) 5 (3 / 2)
    ⟨1000, 1000, "RGBA", false, []⟩ (by norm_num) rfl

/-- Characterization of the merge loop over any list of cells: the canvas
bitmap is never replaced, the paste trace grows by exactly one paste per
successfully fetched cell (in order), `failed_tiles` grows by exactly
the URL of each failed cell (in order), and `successful_tiles` counts
the successful cells. -/
theorem foldl_mergeStep_spec (cfg : Config) (fetch : String → Option Image) :
    ∀ (cells : List (Nat × Nat)) (st : MergeSt),
      (cells.foldl (mergeStep cfg fetch) st).canvas.image = st.canvas.image ∧
      (cells.foldl (mergeStep cfg fetch) st).canvas.pastes =
        st.canvas.pastes ++
          ((cells.filter fun rc => (fetch (urlAt cfg rc)).isSome).map (pasteOf cfg fetch)) ∧
      (cells.foldl (mergeStep cfg fetch) st).failed_tiles =
        st.failed_tiles ++
          ((cells.filter fun rc => (fetch (urlAt cfg rc)).isNone).map (urlAt cfg)) ∧
      (cells.foldl (mergeStep cfg fetch) st).successful_tiles =
        st.successful_tiles +
          ((cells.filter fun rc => (fetch (urlAt cfg rc)).isSome).length) := by
  intro cells
  induction cells with
  | nil => intro st; simp
  | cons rc rest ih =>
    intro st
    simp only [List.foldl_cons]
    obtain ⟨h1, h2, h3, h4⟩ := ih (mergeStep cfg fetch st rc)
    rcases hf : fetch (urlAt cfg rc) with _ | tile
    · refine ⟨?_, ?_, ?_, ?_⟩
      · rw [h1]; simp [mergeStep, hf]
      · rw [h2]; simp [mergeStep, hf, List.filter_cons]
      · rw [h3]; simp [mergeStep, hf, List.filter_cons]
      · rw [h4]; simp [mergeStep, hf, List.filter_cons]
    · refine ⟨?_, ?_, ?_, ?_⟩
      · rw [h1]; simp [mergeStep, hf, Canvas.paste]
      · rw [h2]; simp [mergeStep, hf, Canvas.paste, List.filter_cons, pasteOf]
      · rw [h3]; simp [mergeStep, hf, List.filter_cons]
      · rw [h4]; simp only [mergeStep, hf, List.filter_cons, Option.isSome_some,
          if_true, List.length_cons]
        omega

/-- The canvas bitmap after the whole merge loop is still the fresh RGBA
canvas of the unscaled size. -/
theorem mergeLoopState_image (cfg : Config) (fetch : String → Option Image) :
    (mergeLoopState cfg fetch).canvas.image =
      Image.new "RGBA" cfg.ORIGINAL_WIDTH cfg.ORIGINAL_HEIGHT := by
  rw [mergeLoopState, (foldl_mergeStep_spec cfg fetch (gridCells cfg) _).1]

/-- The paste trace after the whole merge loop: one paste per successful
cell, in row-major order. -/
theorem mergeLoopState_pastes (cfg : Config) (fetch : String → Option Image) :
    (mergeLoopState cfg fetch).canvas.pastes =
      ((gridCells cfg).filter fun rc => (fetch (urlAt cfg rc)).isSome).map
        (pasteOf cfg fetch) := by
  rw [mergeLoopState, (foldl_mergeStep_spec cfg fetch (gridCells cfg) _).2.1]
  rfl

/-- The failure list after the whole merge loop: the URL of each failed
cell, in row-major order. -/
theorem mergeLoopState_failed (cfg : Config) (fetch : String → Option Image) :
    (mergeLoopState cfg fetch).failed_tiles =
      ((gridCells cfg).filter fun rc => (fetch (urlAt cfg rc)).isNone).map (urlAt cfg) := by
  rw [mergeLoopState, (foldl_mergeStep_spec cfg fetch (gridCells cfg) _).2.2.1]
  rfl

/-- The success counter after the whole merge loop counts the successful
cells. -/
theorem mergeLoopState_succ (cfg : Config) (fetch : String → Option Image) :
    (mergeLoopState cfg fetch).successful_tiles =
      ((gridCells cfg).filter fun rc => (fetch (urlAt cfg rc)).isSome).length := by
  rw [mergeLoopState, (foldl_mergeStep_spec cfg fetch (gridCells cfg) _).2.2.2]
  simp

/-- Membership in the row-major cell enumeration. -/
theorem mem_gridCells (cfg : Config) (rc : Nat × Nat) :
    rc ∈ gridCells cfg ↔ rc.1 < cfg.GRID_ROWS ∧ rc.2 < cfg.GRID_COLS := by
  rcases rc with ⟨r, c⟩
  simp only [gridCells, List.mem_flatMap, List.mem_map, List.mem_range]
  constructor
  · rintro ⟨a, ha, b, hb, h⟩
    obtain ⟨rfl, rfl⟩ : a = r ∧ b = c := by
      constructor <;> [exact congrArg Prod.fst h; exact congrArg Prod.snd h]
    exact ⟨ha, hb⟩
  · rintro ⟨hr, hc⟩
    exact ⟨r, hr, c, hc, rfl⟩

/-- The grid enumeration has exactly `GRID_ROWS * GRID_COLS` cells. -/
theorem length_gridCells (cfg : Config) :
    (gridCells cfg).length = cfg.GRID_ROWS * cfg.GRID_COLS := by
  have h : ∀ (n m : ℕ),
      ((List.range n).map (fun r => ((List.range m).map (fun c => (r, c))).length)).sum
        = n * m := by
    intro n m
    induction n with
    | zero => simp
    | succ k ih =>
      rw [List.range_succ, List.map_append, List.sum_append, ih]
      simp [Nat.succ_mul]
  simpa [gridCells, Function.comp_def] using h cfg.GRID_ROWS cfg.GRID_COLS

/-- The `canvas` local of `create_merged_image` is the loop state's canvas
in every branch. -/
theorem create_merged_image_canvas (cfg : Config) (fetch : String → Option Image) :
    (create_merged_image cfg fetch).canvas = (mergeLoopState cfg fetch).canvas := by
  simp only [create_merged_image]
  split
  · rfl
  · split <;> rfl

/-- The `failed_tiles` local of `create_merged_image` is the loop state's
failure list in every branch. -/
theorem create_merged_image_failed (cfg : Config) (fetch : String → Option Image) :
    (create_merged_image cfg fetch).failed_tiles = (mergeLoopState cfg fetch).failed_tiles := by
  simp only [create_merged_image]
  split
  · rfl
  · split <;> rfl

/-- The `successful_tiles` local of `create_merged_image` is the loop
state's counter in every branch. -/
theorem create_merged_image_succ (cfg : Config) (fetch : String → Option Image) :
    (create_merged_image cfg fetch).successful_tiles =
      (mergeLoopState cfg fetch).successful_tiles := by
  simp only [create_merged_image]
  split
  · rfl
  · split <;> rfl

/-- `create_merged_image` returns `None` exactly when the loop recorded at
least one failed tile. -/
theorem create_merged_image_result_none_iff (cfg : Config) (fetch : String → Option Image) :
    ((create_merged_image cfg fetch).result = none ↔
      (mergeLoopState cfg fetch).failed_tiles ≠ []) := by
  simp only [create_merged_image]
  split
  · rename_i h; simp [h]
  · rename_i h; split <;> simp [not_not.mp h]

/-- Resizing-if-needed always yields width `tileSize`. -/
theorem resizeIfNeeded_width (T : Nat) (t : Image) : (resizeIfNeeded T t).width = T := by
  unfold resizeIfNeeded
  by_cases h : (t.width, t.height) = (T, T)
  · rw [if_neg (not_not_intro h)]
    exact congrArg Prod.fst h
  · rw [if_pos h]; rfl

/-- Resizing-if-needed always yields height `tileSize`. -/
theorem resizeIfNeeded_height (T : Nat) (t : Image) : (resizeIfNeeded T t).height = T := by
  unfold resizeIfNeeded
  by_cases h : (t.width, t.height) = (T, T)
  · rw [if_neg (not_not_intro h)]
    exact congrArg Prod.snd h
  · rw [if_pos h]; rfl

/-- Resizing does not change the pixel mode. -/
theorem resizeIfNeeded_mode (T : Nat) (t : Image) : (resizeIfNeeded T t).mode = t.mode := by
  unfold resizeIfNeeded
  split <;> rfl

/-- Converting-if-needed always yields RGBA mode. -/
theorem convertIfNeeded_mode (t : Image) : (convertIfNeeded t).mode = "RGBA" := by
  unfold convertIfNeeded
  by_cases h : t.mode = "RGBA"
  · rw [if_neg (not_not_intro h)]; exact h
  · rw [if_pos h]; rfl

/-- Converting does not change the width. -/
theorem convertIfNeeded_width (t : Image) : (convertIfNeeded t).width = t.width := by
  unfold convertIfNeeded
  split <;> rfl

/-- Converting does not change the height. -/
theorem convertIfNeeded_height (t : Image) : (convertIfNeeded t).height = t.height := by
  unfold convertIfNeeded
  split <;> rfl

/-- Converting preserves the recorded codec calls. -/
theorem convertIfNeeded_ops_mem (t : Image) (op : ImOp) (h : op ∈ t.ops) :
    op ∈ (convertIfNeeded t).ops := by
  unfold convertIfNeeded
  split
  · simp only [Image.convert, List.mem_append]
    exact Or.inl h
  · exact h

/-- A normalized tile is exactly `tileSize` wide. -/
theorem normalizeTile_width (T : Nat) (t : Image) : (normalizeTile T t).width = T := by
  unfold normalizeTile
  rw [convertIfNeeded_width, resizeIfNeeded_width]

/-- A normalized tile is exactly `tileSize` tall. -/
theorem normalizeTile_height (T : Nat) (t : Image) : (normalizeTile T t).height = T := by
  unfold normalizeTile
  rw [convertIfNeeded_height, resizeIfNeeded_height]

/-- A normalized tile is in RGBA mode. -/
theorem normalizeTile_mode (T : Nat) (t : Image) : (normalizeTile T t).mode = "RGBA" := by
  unfold normalizeTile
  exact convertIfNeeded_mode _

/-- A tile whose size differs from `tileSize × tileSize` is resized with
LANCZOS during normalization. -/
theorem normalizeTile_resized (T : Nat) (t : Image)
    (h : (t.width, t.height) ≠ (T, T)) :
    ImOp.resized T T .LANCZOS ∈ (normalizeTile T t).ops := by
  unfold normalizeTile
  apply convertIfNeeded_ops_mem
  unfold resizeIfNeeded
  rw [if_pos h]
  simp [Image.resize]

/-- A tile whose mode is not RGBA is converted to RGBA during
normalization. -/
theorem normalizeTile_converted (T : Nat) (t : Image) (h : t.mode ≠ "RGBA") :
    ImOp.converted "RGBA" ∈ (normalizeTile T t).ops := by
  unfold normalizeTile convertIfNeeded
  rw [resizeIfNeeded_mode, if_pos h]
  simp [Image.convert]

/-- Two distinct `T`-blocks along one axis are disjoint: no coordinate
lies in both `[a·T, a·T + T)` and `[b·T, b·T + T)` when `a ≠ b`. -/
theorem tileBlocks_disjoint (T a b x : Nat) (hab : a ≠ b) :
    ¬(a * T ≤ x ∧ x < a * T + T ∧ b * T ≤ x ∧ x < b * T + T) := by
  rintro ⟨h1, h2, h3, h4⟩
  rcases Nat.lt_or_ge a b with h | h
  · have hle : a * T + T ≤ b * T := by
      calc a * T + T = (a + 1) * T := by ring
        _ ≤ b * T := mul_le_mul_right' h T
    omega
  · have hba : b < a := lt_of_le_of_ne h (Ne.symm hab)
    have hle : b * T + T ≤ a * T := by
      calc b * T + T = (b + 1) * T := by ring
        _ ≤ a * T := mul_le_mul_right' hba T
    omega

/-- Claim C1 (all-or-nothing assembly): after all grid cells have been
attempted, if the failure list is non-empty then `create_merged_image`
returns `None` — the canvas is discarded, never returned, scaled or
handed to persistence — and the reported failure list is the full list
of failed cells; the canvas is returned exactly when every cell's fetch
succeeded. -/
theorem spec_c1 (cfg : Config) (fetch : String → Option Image) :
    ((create_merged_image cfg fetch).failed_tiles ≠ [] →
      (create_merged_image cfg fetch).result = none) ∧
    ((create_merged_image cfg fetch).result = none ↔
      ∃ rc ∈ gridCells cfg, fetch (urlAt cfg rc) = none) ∧
    (create_merged_image cfg fetch).failed_tiles =
      ((gridCells cfg).filter fun rc => (fetch (urlAt cfg rc)).isNone).map (urlAt cfg) := by
  have hiff : (mergeLoopState cfg fetch).failed_tiles ≠ [] ↔
      ∃ rc ∈ gridCells cfg, fetch (urlAt cfg rc) = none := by
    rw [mergeLoopState_failed, Ne, List.map_eq_nil_iff, List.filter_eq_nil_iff]
    simp [Option.isNone_iff_eq_none]
  refine ⟨?_, ?_, ?_⟩
  · intro h
    rw [create_merged_image_result_none_iff]
    rw [create_merged_image_failed] at h
    exact h
  · rw [create_merged_image_result_none_iff, hiff]
  · rw [create_merged_image_failed]
    exact mergeLoopState_failed cfg fetch

/-- Closed instance of C1: on the 2×2 grid where the fetch of `"u10"`
fails, assembly returns `None` and reports exactly that URL. -/
theorem spec_c1_witness :
    (create_merged_image cfgW fetchW).result = none ∧
    (create_merged_image cfgW fetchW).failed_tiles = ["u10"] :=
  ⟨(spec_c1 cfgW fetchW).1 (by decide), by decide⟩

/-- Claim C3 (output size): when every cell's fetch succeeds and the scale
factor is at least 1, the returned canvas measures exactly
`(GRID_COLS·TILE_SIZE·scale, GRID_ROWS·TILE_SIZE·scale)`; with scale 1
this is the unscaled size. -/
theorem spec_c3 (cfg : Config) (fetch : String → Option Image)
    (hall : ∀ rc ∈ gridCells cfg, (fetch (urlAt cfg rc)).isSome = true)
    (hscale : 1 ≤ cfg.SCALE_FACTOR) :
    ∃ canvas, (create_merged_image cfg fetch).result = some canvas ∧
      canvas.image.width = cfg.ORIGINAL_WIDTH * cfg.SCALE_FACTOR.toNat ∧
      canvas.image.height = cfg.ORIGINAL_HEIGHT * cfg.SCALE_FACTOR.toNat := by
  have hfail : (mergeLoopState cfg fetch).failed_tiles = [] := by
    rw [mergeLoopState_failed, List.map_eq_nil_iff, List.filter_eq_nil_iff]
    intro a ha
    have hs := hall a ha
    simp only [Option.isNone_iff_eq_none]
    intro hnone
    rw [hnone] at hs
    simp at hs
  obtain ⟨n, hn⟩ : ∃ n : ℕ, cfg.SCALE_FACTOR = (n : ℤ) :=
    ⟨cfg.SCALE_FACTOR.toNat, (Int.toNat_of_nonneg (by omega)).symm⟩
  by_cases h1 : cfg.SCALE_FACTOR > 1
  · have hres : create_merged_image cfg fetch =
        ⟨some ⟨(mergeLoopState cfg fetch).canvas.image.resize cfg.FINAL_WIDTH.toNat
               cfg.FINAL_HEIGHT.toNat .NEAREST, (mergeLoopState cfg fetch).canvas.pastes⟩,
         (mergeLoopState cfg fetch).canvas, (mergeLoopState cfg fetch).failed_tiles,
         (mergeLoopState cfg fetch).successful_tiles⟩ := by
      simp only [create_merged_image, hfail, ne_eq, not_true_eq_false, if_false, h1, if_true]
    rw [hres]
    refine ⟨_, rfl, ?_, ?_⟩
    · show cfg.FINAL_WIDTH.toNat = cfg.ORIGINAL_WIDTH * cfg.SCALE_FACTOR.toNat
      rw [Config.FINAL_WIDTH, hn, ← Nat.cast_mul, Int.toNat_natCast, Int.toNat_natCast]
    · show cfg.FINAL_HEIGHT.toNat = cfg.ORIGINAL_HEIGHT * cfg.SCALE_FACTOR.toNat
      rw [Config.FINAL_HEIGHT, hn, ← Nat.cast_mul, Int.toNat_natCast, Int.toNat_natCast]
  · have h2 : cfg.SCALE_FACTOR = 1 := by omega
    have hres : create_merged_image cfg fetch =
        ⟨some (mergeLoopState cfg fetch).canvas, (mergeLoopState cfg fetch).canvas,
         (mergeLoopState cfg fetch).failed_tiles,
         (mergeLoopState cfg fetch).successful_tiles⟩ := by
      simp only [create_merged_image, hfail, ne_eq, not_true_eq_false, if_false, h1]
    rw [hres]
    refine ⟨_, rfl, ?_, ?_⟩
    · rw [mergeLoopState_image, h2]
      simp [Image.new]
    · rw [mergeLoopState_image, h2]
      simp [Image.new]

/-- Closed instance of C3: on the 2×2 grid of 5-pixel tiles with scale
factor 2 and every fetch succeeding, the output is 20×20. -/
theorem spec_c3_witness :
    ∃ canvas, (create_merged_image cfgW fetchOkW).result = some canvas ∧
      canvas.image.width = cfgW.ORIGINAL_WIDTH * cfgW.SCALE_FACTOR.toNat ∧
      canvas.image.height = cfgW.ORIGINAL_HEIGHT * cfgW.SCALE_FACTOR.toNat :=
  spec_c3 cfgW fetchOkW (by decide) (by decide)

/-- Claim C4 (no early abort, complete failure list): every grid cell is
attempted; each failed cell contributes exactly its URL to the failure
list (in row-major order) and no paste to the canvas, and each
successful cell contributes exactly one paste; so the failure list is
exactly the URLs of the failed cells. -/
theorem spec_c4 (cfg : Config) (fetch : String → Option Image) :
    (create_merged_image cfg fetch).failed_tiles =
      ((gridCells cfg).filter fun rc => (fetch (urlAt cfg rc)).isNone).map (urlAt cfg) ∧
    (create_merged_image cfg fetch).canvas.pastes =
      ((gridCells cfg).filter fun rc => (fetch (urlAt cfg rc)).isSome).map
        (pasteOf cfg fetch) := by
  rw [create_merged_image_failed, create_merged_image_canvas]
  exact ⟨mergeLoopState_failed cfg fetch, mergeLoopState_pastes cfg fetch⟩

/-- Closed instance of C4: on the 2×2 grid with `"u10"` failing, the
failure list is exactly `["u10"]` and the canvas holds exactly the three
pastes of the successful cells. -/
theorem spec_c4_witness :
    (create_merged_image cfgW fetchW).failed_tiles =
      ((gridCells cfgW).filter fun rc => (fetchW (urlAt cfgW rc)).isNone).map (urlAt cfgW) ∧
    (create_merged_image cfgW fetchW).canvas.pastes =
      ((gridCells cfgW).filter fun rc => (fetchW (urlAt cfgW rc)).isSome).map
        (pasteOf cfgW fetchW) :=
  spec_c4 cfgW fetchW

/-- Claim C5 (tile normalization and placement): a successfully fetched
tile is normalized to exactly `TILE_SIZE × TILE_SIZE` (resized with
LANCZOS when its size differs) and to RGBA (converted when its mode
differs), then pasted at `(col·TILE_SIZE, row·TILE_SIZE)` with the tile
itself as the blend mask; it is pasted regardless of its original size
or mode, and the blocks of distinct cells do not overlap. -/
theorem spec_c5 (cfg : Config) (fetch : String → Option Image) (r c r' c' : Nat)
    (tile : Image)
    (hr : r < cfg.GRID_ROWS) (hc : c < cfg.GRID_COLS)
    (hr' : r' < cfg.GRID_ROWS) (hc' : c' < cfg.GRID_COLS)
    (hfetch : fetch (urlAt cfg (r, c)) = some tile)
    (hfetch' : (fetch (urlAt cfg (r', c'))).isSome = true)
    (hne : (r, c) ≠ (r', c')) :
    (normalizeTile cfg.TILE_SIZE tile).width = cfg.TILE_SIZE ∧
    (normalizeTile cfg.TILE_SIZE tile).height = cfg.TILE_SIZE ∧
    (normalizeTile cfg.TILE_SIZE tile).mode = "RGBA" ∧
    ((tile.width, tile.height) ≠ (cfg.TILE_SIZE, cfg.TILE_SIZE) →
      ImOp.resized cfg.TILE_SIZE cfg.TILE_SIZE .LANCZOS ∈
        (normalizeTile cfg.TILE_SIZE tile).ops) ∧
    (tile.mode ≠ "RGBA" →
      ImOp.converted "RGBA" ∈ (normalizeTile cfg.TILE_SIZE tile).ops) ∧
    pasteOf cfg fetch (r, c) =
      ⟨normalizeTile cfg.TILE_SIZE tile, c * cfg.TILE_SIZE, r * cfg.TILE_SIZE,
       normalizeTile cfg.TILE_SIZE tile⟩ ∧
    pasteOf cfg fetch (r, c) ∈ (create_merged_image cfg fetch).canvas.pastes ∧
    (∀ q : Nat × Nat,
      ¬((pasteOf cfg fetch (r, c)).covers q ∧ (pasteOf cfg fetch (r', c')).covers q)) := by
  have hpaste : pasteOf cfg fetch (r, c) =
      ⟨normalizeTile cfg.TILE_SIZE tile, c * cfg.TILE_SIZE, r * cfg.TILE_SIZE,
       normalizeTile cfg.TILE_SIZE tile⟩ := by
    simp [pasteOf, hfetch]
  obtain ⟨tile', hf'⟩ := Option.isSome_iff_exists.mp hfetch'
  have hpaste' : pasteOf cfg fetch (r', c') =
      ⟨normalizeTile cfg.TILE_SIZE tile', c' * cfg.TILE_SIZE, r' * cfg.TILE_SIZE,
       normalizeTile cfg.TILE_SIZE tile'⟩ := by
    simp [pasteOf, hf']
  refine ⟨normalizeTile_width _ _, normalizeTile_height _ _, normalizeTile_mode _ _,
    normalizeTile_resized _ _, normalizeTile_converted _ _, hpaste, ?_, ?_⟩
  · rw [create_merged_image_canvas, mergeLoopState_pastes]
    apply List.mem_map_of_mem
    rw [List.mem_filter]
    exact ⟨(mem_gridCells cfg (r, c)).mpr ⟨hr, hc⟩, by simp [hfetch]⟩
  · rintro q ⟨hq1, hq2⟩
    rw [hpaste] at hq1
    rw [hpaste'] at hq2
    simp only [Paste.covers, normalizeTile_width, normalizeTile_height] at hq1 hq2
    obtain ⟨ha1, ha2, ha3, ha4⟩ := hq1
    obtain ⟨hb1, hb2, hb3, hb4⟩ := hq2
    have hcc : c ≠ c' ∨ r ≠ r' := by
      rcases eq_or_ne c c' with h | h
      · rcases eq_or_ne r r' with h2 | h2
        · exact absurd (by rw [h, h2]) hne
        · exact Or.inr h2
      · exact Or.inl h
    rcases hcc with h | h
    · exact tileBlocks_disjoint cfg.TILE_SIZE c c' q.1 h ⟨ha1, ha2, hb1, hb2⟩
    · exact tileBlocks_disjoint cfg.TILE_SIZE r r' q.2 h ⟨ha3, ha4, hb3, hb4⟩

/-- Closed instance of C5: on the 2×2 grid with every fetch delivering a
7×9 tile in mode `"P"`, the tile of cell (0, 0) is normalized and placed
without overlapping cell (0, 1). -/
theorem spec_c5_witness :
    (normalizeTile cfgW.TILE_SIZE ⟨7, 9, "P", true, []⟩).width = cfgW.TILE_SIZE ∧
    (normalizeTile cfgW.TILE_SIZE ⟨7, 9, "P", true, []⟩).height = cfgW.TILE_SIZE ∧
    (normalizeTile cfgW.TILE_SIZE ⟨7, 9, "P", true, []⟩).mode = "RGBA" ∧
    (((7 : Nat), (9 : Nat)) ≠ (cfgW.TILE_SIZE, cfgW.TILE_SIZE) →
      ImOp.resized cfgW.TILE_SIZE cfgW.TILE_SIZE .LANCZOS ∈
        (normalizeTile cfgW.TILE_SIZE ⟨7, 9, "P", true, []⟩).ops) ∧
    ("P" ≠ "RGBA" →
      ImOp.converted "RGBA" ∈ (normalizeTile cfgW.TILE_SIZE ⟨7, 9, "P", true, []⟩).ops) ∧
    pasteOf cfgW fetchOkW (0, 0) =
      ⟨normalizeTile cfgW.TILE_SIZE ⟨7, 9, "P", true, []⟩, 0 * cfgW.TILE_SIZE,
       0 * cfgW.TILE_SIZE, normalizeTile cfgW.TILE_SIZE ⟨7, 9, "P", true, []⟩⟩ ∧
    pasteOf cfgW fetchOkW (0, 0) ∈ (create_merged_image cfgW fetchOkW).canvas.pastes ∧
    (∀ q : Nat × Nat,
      ¬((pasteOf cfgW fetchOkW (0, 0)).covers q ∧ (pasteOf cfgW fetchOkW (0, 1)).covers q)) :=
  spec_c5 cfgW fetchOkW 0 0 0 1 ⟨7, 9, "P", true, []⟩ (by decide) (by decide) (by decide)
    (by decide) (by decide) (by decide) (by decide)

/-- Claim C9 (non-positive scale factor is a silent no-op): whenever
`SCALE_FACTOR ≤ 1` — including 0 and negative values — and assembly
succeeds, the canvas is returned unchanged at its original unscaled
size, with no resize operation ever applied to it: never an error and
never a downscale. -/
theorem spec_c9 (cfg : Config) (fetch : String → Option Image)
    (hscale : cfg.SCALE_FACTOR ≤ 1)
    (hall : ∀ rc ∈ gridCells cfg, (fetch (urlAt cfg rc)).isSome = true) :
    (create_merged_image cfg fetch).result = some (create_merged_image cfg fetch).canvas ∧
    (create_merged_image cfg fetch).canvas.image.width = cfg.ORIGINAL_WIDTH ∧
    (create_merged_image cfg fetch).canvas.image.height = cfg.ORIGINAL_HEIGHT ∧
    (create_merged_image cfg fetch).canvas.image.ops = [] := by
  have hfail : (mergeLoopState cfg fetch).failed_tiles = [] := by
    rw [mergeLoopState_failed, List.map_eq_nil_iff, List.filter_eq_nil_iff]
    intro a ha
    have hs := hall a ha
    simp only [Option.isNone_iff_eq_none]
    intro hnone
    rw [hnone] at hs
    simp at hs
  have hns : ¬(cfg.SCALE_FACTOR > 1) := by omega
  have hres : create_merged_image cfg fetch =
      ⟨some (mergeLoopState cfg fetch).canvas, (mergeLoopState cfg fetch).canvas,
       (mergeLoopState cfg fetch).failed_tiles,
       (mergeLoopState cfg fetch).successful_tiles⟩ := by
    simp only [create_merged_image, hfail, ne_eq, not_true_eq_false, if_false, hns]
  rw [hres, mergeLoopState_image]
  exact ⟨rfl, rfl, rfl, rfl⟩

/-- Closed instance of C9: with `SCALE_FACTOR = -3` and all fetches
succeeding on the 2×2 grid of 5-pixel tiles, the result is the unscaled
10×10 canvas with no resize applied. -/
theorem spec_c9_witness :
    (create_merged_image cfgW0 fetchOkW).result =
      some (create_merged_image cfgW0 fetchOkW).canvas ∧
    (create_merged_image cfgW0 fetchOkW).canvas.image.width = cfgW0.ORIGINAL_WIDTH ∧
    (create_merged_image cfgW0 fetchOkW).canvas.image.height = cfgW0.ORIGINAL_HEIGHT ∧
    (create_merged_image cfgW0 fetchOkW).canvas.image.ops = [] :=
  spec_c9 cfgW0 fetchOkW (by decide) (by decide)

/-- Claim C10 (per-cell accounting invariant): every cell contributes to
exactly one of the success counter or the failure list, so after the
loop `successful_tiles + length failed_tiles = GRID_ROWS * GRID_COLS`,
and the failure list holds the failed URLs in row-major order. -/
theorem spec_c10 (cfg : Config) (fetch : String → Option Image) :
    (create_merged_image cfg fetch).successful_tiles +
      (create_merged_image cfg fetch).failed_tiles.length =
      cfg.GRID_ROWS * cfg.GRID_COLS ∧
    (create_merged_image cfg fetch).failed_tiles =
      ((gridCells cfg).filter fun rc => (fetch (urlAt cfg rc)).isNone).map (urlAt cfg) := by
  refine ⟨?_, by rw [create_merged_image_failed]; exact mergeLoopState_failed cfg fetch⟩
  rw [create_merged_image_failed, create_merged_image_succ, mergeLoopState_failed,
    mergeLoopState_succ, List.length_map, ← length_gridCells cfg]
  have h : (gridCells cfg).length =
      ((gridCells cfg).filter fun rc => (fetch (urlAt cfg rc)).isSome).length +
        ((gridCells cfg).filter fun rc => !(fetch (urlAt cfg rc)).isSome).length :=
    List.length_eq_length_filter_add _
  have hnot : ((gridCells cfg).filter fun rc => !(fetch (urlAt cfg rc)).isSome) =
      ((gridCells cfg).filter fun rc => (fetch (urlAt cfg rc)).isNone) := by
    apply List.filter_congr
    intro a _
    cases fetch (urlAt cfg a) <;> rfl
  rw [hnot] at h
  omega

/-- Closed instance of C10: on the 2×2 grid with one failing cell,
`3 + 1 = 2 * 2` and the failure list is that cell's URL. -/
theorem spec_c10_witness :
    (create_merged_image cfgW fetchW).successful_tiles +
      (create_merged_image cfgW fetchW).failed_tiles.length =
      cfgW.GRID_ROWS * cfgW.GRID_COLS ∧
    (create_merged_image cfgW fetchW).failed_tiles =
      ((gridCells cfgW).filter fun rc => (fetchW (urlAt cfgW rc)).isNone).map (urlAt cfgW) :=
  spec_c10 cfgW fetchW

/-- Claim C8 (exit-code translation): the process exits 0 exactly when
assembly returned a canvas and persistence did not fail, and exits 1 on
any failure; the exit code is always 0 or 1 — no abnormal termination. -/
theorem spec_c8 (cfg : Config) (fetch : String → Option Image) (fsError : Bool)
    (dated_dir timestamp : String) :
    (exitCode cfg fetch fsError dated_dir timestamp = 0 ↔
      ((create_merged_image cfg fetch).result.isSome = true ∧ fsError = false)) ∧
    (exitCode cfg fetch fsError dated_dir timestamp = 0 ∨
      exitCode cfg fetch fsError dated_dir timestamp = 1) := by
  cases hres : (create_merged_image cfg fetch).result <;> cases fsError <;>
    simp [exitCode, mainResult, save_image, hres]

/-- Closed instance of C8: a failed download exits 1, a failed save exits
1, and a fully successful run exits 0. -/
theorem spec_c8_witness :
    (exitCode cfgW fetchOkW false "output/20250901" "20250901_120000" = 0 ↔
      ((create_merged_image cfgW fetchOkW).result.isSome = true ∧ false = false)) ∧
    (exitCode cfgW fetchOkW false "output/20250901" "20250901_120000" = 0 ∨
      exitCode cfgW fetchOkW false "output/20250901" "20250901_120000" = 1) :=
  spec_c8 cfgW fetchOkW false "output/20250901" "20250901_120000"
